import Mathlib

/-!
Verification development for the `parcel-tw` repository.

The Python sources are shallowly embedded: each carrier's request-handling
flow is a function of an explicit environment describing what the network,
the HTML parser and the OCR oracle would return at each call site, and each
adapter's conversion is a pure function on the parsed representation of the
carrier's payload.  Raised Python exceptions are modelled with `Except`.
-/

namespace ParcelTw

/-- Python exceptions that the embedded code can raise.  `exn` carries the
message of a plain `Exception(msg)`. -/
inductive PyErr
  | transport
  | typeError
  | keyError
  | valueError
  | attributeError (name : String)
  | exn (msg : String)
deriving DecidableEq, Repr

/-- The part of a `requests.Response` the embedded code inspects:
`status_code` and whether `response.content` is non-empty (Python truthiness
of the body). -/
structure HttpResp where
  status : Nat
  hasContent : Bool
deriving DecidableEq, Repr

/-! ### Python string primitives

The sources use `in`, `str.strip`, `str.replace` and `len`; they are
re-implemented here over `List Char` so that every theorem can be evaluated
by the kernel.  Only ASCII whitespace and ASCII digits occur in the inputs
the code manipulates, matching the Python behaviour on those inputs. -/

/-- `\d` of the source's regular expressions restricted to ASCII, and
`str.isdigit` on ASCII text. -/
def charIsDigit (c : Char) : Bool := 48 ≤ c.toNat && c.toNat ≤ 57

/-- Numeric value of an ASCII digit character. -/
def digitVal (c : Char) : Nat := c.toNat - 48

/-- Does `pat` occur as a contiguous run inside the second list?
(`pat in hay` for Python strings, after `toList`.) -/
def listHasSub (pat : List Char) : List Char → Bool
  | [] => pat.isEmpty
  | c :: rest => pat.isPrefixOf (c :: rest) || listHasSub pat rest

/-- Python's `needle in hay` on strings: substring containment, exact and
case-sensitive. -/
def pyInStr (needle hay : String) : Bool := listHasSub needle.toList hay.toList

/-- Characters stripped by Python's `str.strip()` (ASCII whitespace). -/
def pyWhitespace : List Char := [' ', '\t', '\n', '\r', '\x0b', '\x0c']

/-- Remove the characters of `cs` from both ends (Python `str.strip(chars)`). -/
def stripChars (cs : List Char) (s : String) : String :=
  ⟨((s.toList.dropWhile (cs.contains ·)).reverse.dropWhile (cs.contains ·)).reverse⟩

/-- Python `str.strip()` with no argument. -/
def pyStrip (s : String) : String := stripChars pyWhitespace s

/-- Non-overlapping left-to-right replacement, the worker for `pyReplace`.
The fuel is the length of the remaining input, which bounds the recursion. -/
def listReplaceAux (pat rep : List Char) : Nat → List Char → List Char
  | 0, l => l
  | _ + 1, [] => []
  | fuel + 1, c :: rest =>
    if pat.isPrefixOf (c :: rest) then
      rep ++ listReplaceAux pat rep fuel ((c :: rest).drop pat.length)
    else
      c :: listReplaceAux pat rep fuel rest

/-- Python `s.replace(pat, rep)`.  The sources never call it with an empty
pattern, which is left as the identity here. -/
def pyReplace (s pat rep : String) : String :=
  if pat.toList.isEmpty then s
  else ⟨listReplaceAux pat.toList rep.toList s.toList.length s.toList⟩

/-! ### The shared data model (src/parcel_tw/base.py) -/

/-- The `TrackingInfo` dataclass of `src/parcel_tw/base.py`.  `raw_data` is
the carrier-specific payload, opaque to callers, so the structure is
parameterised by its type.  `order_id` is declared `str` in Python but is
assigned dynamically; a carrier can store `None` there (KTJ when both
`bolNo` keys are missing), hence `Option String`. -/
structure TrackingInfo (ρ : Type) where
  order_id : Option String
  platform : String
  status : String
  time : Option String
  is_delivered : Bool
  raw_data : ρ
deriving DecidableEq, Repr

/-- The field names of the `TrackingInfo` dataclass, in declaration order;
all of them are required (none has a default value). -/
def trackingInfoFields : List String :=
  ["order_id", "platform", "status", "time", "is_delivered", "raw_data"]

/-- A Python keyword-argument call of the dataclass constructor raises
`TypeError` exactly when it passes an unexpected keyword or omits a
required field. -/
def kwCallBad (supplied : List String) : Bool :=
  supplied.any (fun n => !(trackingInfoFields.contains n)) ||
  trackingInfoFields.any (fun n => !(supplied.contains n))

/-- Modelled from the spec: the repository's `enums.py` module is not under
`src/`; its members are exactly those referenced by the sources
(`Platform.SevenEleven`, `Platform.FamilyMart`, `Platform.OKMart` in
`track.py`, and `Platform.Hct`, `Platform.Ktj`, `Platform.Ecan`,
`Platform.Tcat` in the carrier modules), a closed enumeration of supported
carriers. -/
inductive Platform
  | SevenEleven
  | FamilyMart
  | OKMart
  | Hct
  | Ktj
  | Ecan
  | Tcat
deriving DecidableEq, Repr

/-- Modelled from the spec: `Platform.<member>.value` is an enumerated
carrier tag; the concrete strings are never claim-relevant (7-11 and OKMart
hard-code their tags in `src/`, the rest read them from the missing
`enums.py`). -/
def platformValue : Platform → String
  | .SevenEleven => "7-11"
  | .FamilyMart => "FamilyMart"
  | .OKMart => "OKMart"
  | .Hct => "HCT"
  | .Ktj => "KTJ"
  | .Ecan => "Ecan"
  | .Tcat => "Tcat"

/-! ### 7-11 (src/parcel_tw/seven_eleven.py)

`SevenElevenTracker.search` validates the identifier's length, then loops
up to `max_retry` (default 5) times: GET the search page, build the payload
(which fetches and OCRs the captcha image), POST it, parse the response,
and retry on captcha errors.  The environment gives, for each value of the
retry counter, how far that iteration gets and what it parses. -/

/-- The parsed response built by `SevenElevenResponseParser.parse`:
`msg` is always set before the dict is returned; `m_news` and
`result.info` stay `None` unless the success path runs.  `info` is the
span-id ↦ text dict of the `div.info` block. -/
structure SevenRaw where
  msg : String
  m_news : Option String
  info : Option (List (String × String))
  shipping : List String
deriving DecidableEq, Repr

/-- How one iteration of the 7-11 retry loop unfolds.  The `Raise`
outcomes are uncaught Python exceptions (nothing in `search` catches
them): a transport error in `_get_search_page`, in the captcha-image
fetch / OCR inside `_construct_payload`, or in `_send_post_request`.
`pageFail`/`postFail` are the handled non-200 cases (the helper returned
`None`), and `parsed raw` means the POST succeeded and the response parsed
to `raw`. -/
inductive SevenIterOutcome
  | pageRaise
  | pageFail
  | payloadRaise
  | postRaise
  | postFail
  | parsed (raw : SevenRaw)
deriving DecidableEq, Repr

/-- Environment of one 7-11 lookup: the outcome of the iteration at each
retry-counter value. -/
structure SevenEnv where
  iter : Nat → SevenIterOutcome

/-- `SevenElevenTracker._validate_order_id`: the identifier must be 8, 11
or 12 characters long. -/
def sevenValidateOrderId (order_id : String) : Bool :=
  order_id.length = 8 || order_id.length = 11 || order_id.length = 12

/-- The timestamp shape `\d{4}/\d{2}/\d{2} \d{2}:\d{2}:\d{2}` of
`_convert_to_tracking_info`'s regular expression, on a 19-character run. -/
def sevenTsShape (cs : List Char) : Bool :=
  match cs with
  | [a, b, c, d, s1, e, f, s2, g, h, sp, i, j, c1, k, l, c2, m, n] =>
    charIsDigit a && charIsDigit b && charIsDigit c && charIsDigit d &&
    s1 = '/' && charIsDigit e && charIsDigit f && s2 = '/' &&
    charIsDigit g && charIsDigit h && sp = ' ' &&
    charIsDigit i && charIsDigit j && c1 = ':' &&
    charIsDigit k && charIsDigit l && c2 = ':' &&
    charIsDigit m && charIsDigit n
  | _ => false

/-- The first line of `m_news` (the `(.*)` group cannot cross a
newline). -/
def sevenNewsLine (m : String) : List Char := m.toList.takeWhile (· ≠ '\n')

/-- The positions of the first line at which a timestamp-shaped run
starts. -/
def sevenNewsIdxs (m : String) : List Nat :=
  (List.range (sevenNewsLine m).length).filter
    (fun i => sevenTsShape (((sevenNewsLine m).drop i).take 19))

/-- `re.match(r"(.*)(\d{4}/\d{2}/\d{2} \d{2}:\d{2}:\d{2})", m_news)`:
anchored at the start, `(.*)` cannot cross a newline and is greedy, so the
match succeeds exactly when the first line holds a timestamp-shaped run and
the chosen run is the last one on that line; the groups are the text before
it and the 19-character run itself. -/
def sevenNewsMatch (m : String) : Option (String × String) :=
  match (sevenNewsIdxs m).getLast? with
  | none => none
  | some i =>
    some (⟨(sevenNewsLine m).take i⟩, ⟨((sevenNewsLine m).drop i).take 19⟩)

/-- `SevenElevenTracker._convert_to_tracking_info`.  A missing
`query_no` key raises `KeyError`; `re.match` on a `None` `m_news` raises
`TypeError`; both are uncaught in `search`. -/
def sevenConvert (raw : Option SevenRaw) :
    Except PyErr (Option (TrackingInfo SevenRaw)) :=
  match raw with
  | none => .ok none
  | some r =>
    match r.info with
    | none => .ok none
    | some info =>
      match info.lookup "query_no" with
      | none => .error .keyError
      | some query_no =>
        match r.m_news with
        | none => .error .typeError
        | some m =>
          match sevenNewsMatch m with
          | none => .ok none
          | some (status, time) =>
            .ok (some
              { order_id := some query_no
                platform := "7-11"
                status := status
                time := some time
                is_delivered :=
                  pyInStr "包裹配達取件門市" status ||
                  pyInStr "已完成包裹成功取件" status
                raw_data := r })

/-- Network requests issued by an iteration that ends in the given
outcome: the search-page GET, then the captcha-image GET inside
`_construct_payload`, then the POST. -/
def sevenIterCalls : SevenIterOutcome → Nat
  | .pageRaise => 1
  | .pageFail => 1
  | .payloadRaise => 2
  | .postRaise => 3
  | .postFail => 3
  | .parsed _ => 3

/-- The `while retry_counter < self.max_retry` loop of `search`; `fuel` is
`max_retry - retry_counter` and `raw` the `raw_data` local (updated by
every successful parse, kept across failed iterations).  Returns the
Python control-flow outcome (`error` = an exception escaped the loop)
together with the number of network requests issued. -/
def sevenLoop (env : SevenEnv) :
    Nat → Nat → Option SevenRaw → (Except PyErr (Option SevenRaw)) × Nat
  | _, 0, raw => (.ok raw, 0)
  | counter, fuel + 1, raw =>
    match env.iter counter with
    | .pageRaise => (.error .transport, 1)
    | .pageFail =>
      let r := sevenLoop env (counter + 1) fuel raw
      (r.1, r.2 + 1)
    | .payloadRaise => (.error .transport, 2)
    | .postRaise => (.error .transport, 3)
    | .postFail =>
      let r := sevenLoop env (counter + 1) fuel raw
      (r.1, r.2 + 3)
    | .parsed raw2 =>
      if raw2.msg = "驗證碼錯誤!!" then
        let r := sevenLoop env (counter + 1) fuel (some raw2)
        (r.1, r.2 + 3)
      else
        (.ok (some raw2), 3)

/-- `SevenElevenTracker.search` (with the default `max_retry = 5`):
length validation short-circuits to `None` before any session use;
otherwise the retry loop runs and the accumulated `raw_data` is converted.
The second component counts the network requests of the lookup. -/
def sevenSearch (env : SevenEnv) (order_id : String) :
    (Except PyErr (Option (TrackingInfo SevenRaw))) × Nat :=
  if sevenValidateOrderId order_id then
    match sevenLoop env 0 5 none with
    | (.error e, n) => (.error e, n)
    | (.ok raw, n) => (sevenConvert raw, n)
  else
    (.ok none, 0)

/-- The kinds of network request `SevenElevenTracker.search` issues:
the search-page GET, the captcha-image GET inside `_construct_payload`,
and the business POST of `_send_post_request` (which submits the order
identifier together with the solved code). -/
inductive SevenReq
  | pageGet
  | imageGet
  | businessPost
deriving DecidableEq, Repr

/-- The request trace of the 7-11 retry loop, request by request in the
order the source issues them; the same loop as `sevenLoop`, recording
what each iteration sends instead of only how much (`sevenLoopTrace`
and `sevenLoop` agree on the request count, see
`sevenLoopTrace_length`). -/
def sevenLoopTrace (env : SevenEnv) : Nat → Nat → List SevenReq
  | _, 0 => []
  | counter, fuel + 1 =>
    match env.iter counter with
    | .pageRaise => [.pageGet]
    | .pageFail => .pageGet :: sevenLoopTrace env (counter + 1) fuel
    | .payloadRaise => [.pageGet, .imageGet]
    | .postRaise => [.pageGet, .imageGet, .businessPost]
    | .postFail =>
      .pageGet :: .imageGet :: .businessPost ::
        sevenLoopTrace env (counter + 1) fuel
    | .parsed raw2 =>
      if raw2.msg = "驗證碼錯誤!!" then
        .pageGet :: .imageGet :: .businessPost ::
          sevenLoopTrace env (counter + 1) fuel
      else [.pageGet, .imageGet, .businessPost]

/-! ### HCT (src/parcel_tw/hct.py)

`HctRequestHandler._get_captcha_and_tokens` is the bounded retry state
machine: for each attempt it GETs the search page, extracts the WebForm
tokens and the captcha image URL, downloads the image, runs the OCR and
validates the candidate's shape; any failure runs one reset/backoff cycle
(`_reset_session_if_needed` followed by `_random_delay`) and moves to the
next attempt. -/

/-- `MAX_ATTEMPTS` of src/parcel_tw/hct.py. -/
def MAX_ATTEMPTS : Nat := 5

/-- The WebForm tokens of `_extract_tokens`: `__VIEWSTATE` is mandatory
(the function returns `None` without it), the other two may be absent. -/
structure Tokens where
  viewstate : String
  generator : Option String
  eventvalidation : Option String
deriving DecidableEq, Repr

/-- What the environment supplies to one solver attempt: the search-page
GET outcome, the results of token extraction and captcha-image location on
the parsed page, the image GET outcome, and the OCR result
(`ok (some s)` = the classifier returned the string `s`, `ok none` = it
returned a non-string value, `error` = it raised). -/
structure HctAttemptEnv where
  searchResult : Except Unit HttpResp
  tokens : Option Tokens
  imgSrc : Option String
  imgResult : Except Unit HttpResp
  ocrResult : Except Unit (Option String)
deriving Repr

/-- Result of one attempt: a shape-valid candidate with that attempt's
tokens, or a transition to the retry path (one reset/backoff cycle). -/
inductive AttemptStep
  | success (tokens : Tokens) (captcha : String)
  | retry
deriving DecidableEq, Repr

/-- One iteration of the `for attempt in range(1, MAX_ATTEMPTS + 1)` loop
of `_get_captcha_and_tokens`, following the source's cascade: transport
exception, redirect status, non-200/empty body, missing tokens or captcha
`src`, image transport exception, image non-200/empty body, OCR exception,
non-string OCR result, and finally the shape validation
`len(captcha.strip()) == 4`. -/
def hctAttempt (a : HctAttemptEnv) : AttemptStep :=
  match a.searchResult with
  | .error _ => .retry
  | .ok resp =>
    if 300 ≤ resp.status ∧ resp.status < 400 then .retry
    else if resp.status ≠ 200 ∨ resp.hasContent = false then .retry
    else
      match a.tokens, a.imgSrc with
      | some tokens, some src =>
        if src = "" then .retry
        else
          match a.imgResult with
          | .error _ => .retry
          | .ok ir =>
            if ir.status ≠ 200 ∨ ir.hasContent = false then .retry
            else
              match a.ocrResult with
              | .error _ => .retry
              | .ok none => .retry
              | .ok (some s) =>
                if (pyStrip s).length = 4 then .success tokens (pyStrip s)
                else .retry
      | _, _ => .retry

/-- Outcome of the whole solver: the returned value or the raised
exception, with the number of reset/backoff cycles executed and of
challenge-page fetches issued. -/
structure SolverOutcome where
  result : Except PyErr (Tokens × String)
  resets : Nat
  pageFetches : Nat
deriving Repr

/-- The attempt loop: `first` is the current attempt number and `fuel` the
attempts still allowed; when the fuel runs out the source raises
`Exception("超過最大嘗試次數，無法取得有效驗證碼")`. -/
def hctSolverAux (env : Nat → HctAttemptEnv) : Nat → Nat → SolverOutcome
  | _, 0 => ⟨.error (.exn "超過最大嘗試次數，無法取得有效驗證碼"), 0, 0⟩
  | first, fuel + 1 =>
    match hctAttempt (env first) with
    | .success t c => ⟨.ok (t, c), 0, 1⟩
    | .retry =>
      let o := hctSolverAux env (first + 1) fuel
      ⟨o.result, o.resets + 1, o.pageFetches + 1⟩

/-- `HctRequestHandler._get_captcha_and_tokens`: attempts run from 1 to
`MAX_ATTEMPTS`. -/
def hctGetCaptchaAndTokens (env : Nat → HctAttemptEnv) : SolverOutcome :=
  hctSolverAux env 1 MAX_ATTEMPTS

/-- One row of the final result page's `div.grid-container` grid, as the
adapter's tag lookups see it: the stripped texts of `col_optime`, of the
`linkInv` span of `col_state`, of the tooltip extracted from its
`onmouseover` attribute, of `col_count` and of `col_office` (each `""`
when the tag is missing). -/
structure HctGridRow where
  optime : String
  state : String
  tooltip : String
  count : String
  office : String
deriving DecidableEq, Repr

/-- Environment of one HCT lookup: the per-attempt solver environment,
the middle POST to `SEARCH_URL`, the `no`/`chk` continuation inputs found
in the middle response, the final POST to `RESULT_URL`, and the grid rows
the final page parses to. -/
structure HctEnv where
  attempts : Nat → HctAttemptEnv
  middleResult : Except Unit HttpResp
  middleNoChk : Option (String × String)
  finalResult : Except Unit HttpResp
  finalRows : List HctGridRow

/-- Outcome of `HctRequestHandler.get_data`, instrumented with the solver
counters plus the number of middle (primary business submission) POSTs and
of final POSTs issued. -/
structure HctDataOutcome where
  result : Except PyErr (List HctGridRow)
  resets : Nat
  pageFetches : Nat
  middlePosts : Nat
  finalPosts : Nat
deriving Repr

/-- The part of `HctRequestHandler.get_data` that follows the challenge
solver, given the solver's outcome `s`: POST the primary submission once
(failures raise immediately, no retry at this layer), extract the
`no`/`chk` continuation fields, issue the final POST and return the final
page (represented by its parsed grid rows). -/
def hctGetDataAfterSolve (env : HctEnv) (s : SolverOutcome) : HctDataOutcome :=
  match s.result with
  | .error e => ⟨.error e, s.resets, s.pageFetches, 0, 0⟩
  | .ok _ =>
    match env.middleResult with
    | .error _ =>
      ⟨.error (.exn "中繼查詢失敗"), s.resets, s.pageFetches, 1, 0⟩
    | .ok r =>
      if r.status ≠ 200 ∨ r.hasContent = false then
        ⟨.error (.exn ("中繼查詢回傳異常 (status=" ++ toString r.status ++ ")")),
          s.resets, s.pageFetches, 1, 0⟩
      else
        match env.middleNoChk with
        | none =>
          ⟨.error (.exn "無法取得 no/chk（驗證碼錯誤或回傳非預期頁）"),
            s.resets, s.pageFetches, 1, 0⟩
        | some _ =>
          match env.finalResult with
          | .error _ => ⟨.error .transport, s.resets, s.pageFetches, 1, 1⟩
          | .ok fr =>
            if fr.status ≠ 200 then
              ⟨.error (.exn ("最終查詢失敗 (status=" ++ toString fr.status ++ ")")),
                s.resets, s.pageFetches, 1, 1⟩
            else
              ⟨.ok env.finalRows, s.resets, s.pageFetches, 1, 1⟩

/-- `HctRequestHandler.get_data`: solve the challenge, then run the
submission chain. -/
def hctGetData (env : HctEnv) (_tracking_number : String) : HctDataOutcome :=
  hctGetDataAfterSolve env (hctGetCaptchaAndTokens env.attempts)

/-- One record of `HctTrackingInfoAdapter.convert`'s `records` list
(rows whose `col_optime` text is empty are skipped). -/
structure HctRecord where
  optime : String
  state : String
  count : String
  office : String
deriving DecidableEq, Repr

/-- The row-to-record extraction of `HctTrackingInfoAdapter.convert`:
keep rows with a non-empty time text, join the state text and the tooltip
with a newline and strip, and drop `"件"` from the count.  (The
`re.search(r"'(.*?)'", ...)` tooltip extraction is abstracted into the
row's `tooltip` field.) -/
def hctRecordsOfRows (rows : List HctGridRow) : List HctRecord :=
  rows.filterMap (fun r =>
    if r.optime = "" then none
    else
      some
        { optime := r.optime
          state := pyStrip (r.state ++ "\n" ++ r.tooltip)
          count := pyReplace r.count "件" ""
          office := r.office })

/-- `HctTrackingInfoAdapter.convert`: no records ⇒ `None`; otherwise the
first record is the latest event and every output field derives from it. -/
def hctConvert (tracking_number : String) (rows : List HctGridRow) :
    Option (TrackingInfo (List HctRecord)) :=
  match hctRecordsOfRows rows with
  | [] => none
  | latest :: _ =>
    some
      { order_id := some tracking_number
        platform := platformValue .Hct
        status := latest.state
        time := some latest.optime
        is_delivered := pyInStr "送達" latest.state
        raw_data := hctRecordsOfRows rows }

/-- `HctTracker.track_status`: every exception from `get_data` is caught
and logged, and the lookup returns `None`; otherwise the adapter converts
the final page. -/
def hctTrackStatus (env : HctEnv) (tracking_number : String) :
    Option (TrackingInfo (List HctRecord)) :=
  match (hctGetData env tracking_number).result with
  | .error _ => none
  | .ok rows => hctConvert tracking_number rows

/-! ### FamilyMart (src/parcel_tw/family_mart.py) -/

/-- One entry of the `"List"` array of the FamilyMart JSON payload, with
the keys the adapter reads. -/
structure FamStatus where
  ORDER_NO : String
  ORDER_DATE_R : String
  STATUS_D : String
deriving DecidableEq, Repr

/-- The parsed FamilyMart payload; `status_list` is `raw_data["List"]`. -/
structure FamRaw where
  status_list : List FamStatus
deriving DecidableEq, Repr

/-- `FamilyMartTrackingInfoAdapter.convert`: empty list ⇒ `None`; the
first element is the latest status; `":00"` is appended to the time. -/
def famConvert (raw : FamRaw) : Option (TrackingInfo FamRaw) :=
  match raw.status_list with
  | [] => none
  | latest :: _ =>
    some
      { order_id := some latest.ORDER_NO
        platform := platformValue .FamilyMart
        status := latest.STATUS_D
        time := some (latest.ORDER_DATE_R ++ ":00")
        is_delivered :=
          pyInStr "貨件配達取件店舖" latest.STATUS_D ||
          pyInStr "已完成取件" latest.STATUS_D
        raw_data := raw }

/-- `FamilyMartTracker.track_status`: the `try` block wraps only
`FamilyMartRequestHandler().get_data(order_id)`, whose outcome (the parsed
payload, or the exception it raised) is the environment here; an exception
is logged and the lookup returns `None`, and the adapter then converts the
data outside the `try`. -/
def famTrackStatus (env : Except PyErr FamRaw) (_order_id : String) :
    Option (TrackingInfo FamRaw) :=
  match env with
  | .error _ => none
  | .ok raw => famConvert raw

/-! ### KTJ (src/parcel_tw/ktj.py) -/

/-- One entry of a KTJ `course` list, with the keys the adapter reads. -/
structure KtjCourse where
  bolNo : Option String
  processCargoCrtDAteAndTime : Option String
  processCargoCrtDate : Option String
  processCargoCrtTime : Option String
  statusIdName : Option String
deriving DecidableEq, Repr

/-- One entry of the KTJ `result` list. -/
structure KtjItem where
  bolNo : Option String
  course : Option (List KtjCourse)
deriving DecidableEq, Repr

/-- The decoded KTJ payload; `result` is `raw_data.get("result")` and its
entries can be JSON `null` (covered by `results[0] or {}` in the source).
-/
structure KtjRaw where
  result : Option (List (Option KtjItem))
deriving DecidableEq, Repr

/-- Python truthiness of a possibly-`None` string: `None` and `""` are
falsy. -/
def pyFalsyStr : Option String → Bool
  | none => true
  | some s => s = ""

/-- Python `a or b` on possibly-`None` strings. -/
def pyOrStr (a b : Option String) : Option String :=
  if pyFalsyStr a then b else a

/-- `re.sub(r"\.\d+$", "", s)`: drop a final `.` followed only by digits.
-/
def stripTrailingMillis (s : String) : String :=
  let rcs := s.toList.reverse
  let digs := rcs.takeWhile charIsDigit
  match digs, rcs.drop digs.length with
  | _ :: _, '.' :: rest => ⟨rest.reverse⟩
  | _, _ => s

/-- The `^\d{4}-\d{2}-\d{2}T\d{2}:\d{2}$` test of `_normalize_time`
(whose match makes the source append `":00"`). -/
def ktjShortShape (s : String) : Bool :=
  match s.toList with
  | [a, b, c, d, s1, e, f, s2, g, h, t, i, j, c1, k, l] =>
    charIsDigit a && charIsDigit b && charIsDigit c && charIsDigit d &&
    s1 = '-' && charIsDigit e && charIsDigit f && s2 = '-' &&
    charIsDigit g && charIsDigit h && t = 'T' &&
    charIsDigit i && charIsDigit j && c1 = ':' &&
    charIsDigit k && charIsDigit l
  | _ => false

/-- Days of a month in the proleptic Gregorian calendar, as validated by
`datetime`. -/
def daysInMonth (y m : Nat) : Nat :=
  if m = 2 then
    if y % 4 = 0 && (y % 100 ≠ 0 || y % 400 = 0) then 29 else 28
  else if m = 4 || m = 6 || m = 9 || m = 11 then 30
  else 31

/-- A parsed `datetime` value. -/
structure PyDateTime where
  y : Nat
  mo : Nat
  d : Nat
  h : Nat
  mi : Nat
  s : Nat
deriving DecidableEq, Repr

/-- Read one or two digits, greedily, as `strptime`'s `%m`/`%d`/`%H`/
`%M`/`%S` patterns do (two digits whenever two are available — the
following literal separators make backtracking irrelevant). -/
def readTwo : List Char → Option (Nat × List Char)
  | a :: b :: rest =>
    if charIsDigit a then
      if charIsDigit b then some (digitVal a * 10 + digitVal b, rest)
      else some (digitVal a, b :: rest)
    else none
  | [a] => if charIsDigit a then some (digitVal a, []) else none
  | [] => none

/-- `datetime.strptime(s, "%Y-%m-%dT%H:%M:%S")`: `%Y` consumes exactly
four digits, the other fields one or two; the whole string must be
consumed; field ranges are those `datetime` accepts.  The `y ≤ 9999`
conjunct is implied by the four-digit `%Y` and is recorded in the guard
for downstream reasoning. -/
def parseStrptime (str : String) : Option PyDateTime :=
  match str.toList with
  | a :: b :: c :: d :: '-' :: rest =>
    if charIsDigit a && charIsDigit b && charIsDigit c && charIsDigit d then
      match readTwo rest with
      | some (mo, '-' :: rest2) =>
        match readTwo rest2 with
        | some (dd, 'T' :: rest3) =>
          match readTwo rest3 with
          | some (hh, ':' :: rest4) =>
            match readTwo rest4 with
            | some (mi, ':' :: rest5) =>
              match readTwo rest5 with
              | some (ss, []) =>
                if 1 ≤ digitVal a * 1000 + digitVal b * 100 + digitVal c * 10 + digitVal d ∧
                    digitVal a * 1000 + digitVal b * 100 + digitVal c * 10 + digitVal d ≤ 9999 ∧
                    1 ≤ mo ∧ mo ≤ 12 ∧ 1 ≤ dd ∧
                    dd ≤ daysInMonth
                      (digitVal a * 1000 + digitVal b * 100 + digitVal c * 10 + digitVal d) mo ∧
                    hh ≤ 23 ∧ mi ≤ 59 ∧ ss ≤ 59 then
                  some ⟨digitVal a * 1000 + digitVal b * 100 + digitVal c * 10 + digitVal d,
                    mo, dd, hh, mi, ss⟩
                else none
              | _ => none
            | _ => none
          | _ => none
        | _ => none
      | _ => none
    else none
  | _ => none

/-- `dt.strftime("%Y/%m/%d %H:%M")` for the values `parseStrptime`
produces, zero-padded (years below 1000 cannot arise from practical
carrier data; zero-padding is used for them as well). -/
def renderDt (t : PyDateTime) : String :=
  ⟨[Nat.digitChar (t.y / 1000), Nat.digitChar (t.y / 100 % 10),
    Nat.digitChar (t.y / 10 % 10), Nat.digitChar (t.y % 10), '/',
    Nat.digitChar (t.mo / 10), Nat.digitChar (t.mo % 10), '/',
    Nat.digitChar (t.d / 10), Nat.digitChar (t.d % 10), ' ',
    Nat.digitChar (t.h / 10), Nat.digitChar (t.h % 10), ':',
    Nat.digitChar (t.mi / 10), Nat.digitChar (t.mi % 10)]⟩

/-- The preprocessing `_normalize_time` applies before parsing: strip,
replace every space by `T`, drop a trailing fractional-seconds suffix,
and append `":00"` when the seconds are missing from an otherwise
well-shaped text. -/
def ktjPre (s : String) : String :=
  let t := stripTrailingMillis (pyReplace (pyStrip s) " " "T")
  if ktjShortShape t then t ++ ":00" else t

/-- `_normalize_time` of src/parcel_tw/ktj.py: falsy input ⇒ `None`;
otherwise preprocess, and render canonically when `strptime` succeeds,
returning the preprocessed text itself when it does not. -/
def ktjNormalizeTime (s : Option String) : Option String :=
  match s with
  | none => none
  | some s0 =>
    if s0 = "" then none
    else
      match parseStrptime (ktjPre s0) with
      | some dt => some (renderDt dt)
      | none => some (ktjPre s0)

/-- The delivered-keyword list of `KtjTrackingInfoAdapter.convert`. -/
def ktjDeliveredKeywords : List String :=
  ["簽收", "配達", "已送達", "已完成配送", "已完成", "配送完成"]

/-- `KtjTrackingInfoAdapter.convert`: empty `result` or empty `course` ⇒
`None`; the first course entry is the latest event; the time string
prefers `processCargoCrtDAteAndTime` and falls back to
`date + "T" + time` when both parts are truthy. -/
def ktjConvert (raw : KtjRaw) : Option (TrackingInfo KtjRaw) :=
  match raw.result.getD [] with
  | [] => none
  | item0 :: _ =>
    let item : KtjItem := item0.getD ⟨none, none⟩
    match item.course.getD [] with
    | [] => none
    | latest :: _ =>
      let a := latest.processCargoCrtDAteAndTime
      let time_str : Option String :=
        if pyFalsyStr a then
          match latest.processCargoCrtDate, latest.processCargoCrtTime with
          | some d, some t => if d ≠ "" ∧ t ≠ "" then some (d ++ "T" ++ t) else a
          | _, _ => a
        else a
      let status_message := pyStrip (latest.statusIdName.getD "")
      some
        { order_id := pyOrStr item.bolNo latest.bolNo
          platform := platformValue .Ktj
          status := status_message
          time := ktjNormalizeTime time_str
          is_delivered := ktjDeliveredKeywords.any (fun k => pyInStr k status_message)
          raw_data := raw }

/-! ### Ecan (src/parcel_tw/ecan.py)

`EcanTrackingInfoAdapter.convert` parses the result page with
BeautifulSoup; its tag lookups are abstracted into `EcanDoc`: the
`table.sheetList` element with the text of its `td[colspan="4"]` waybill
cell and its `tbody.ListStyle01 tr` rows, each row carrying its extracted
`td` texts. -/

/-- One `tr` of the Ecan status table: whether it holds a
`td[colspan="4"]` (the waybill row, excluded from the events), and the
texts of its `td` cells. -/
structure EcanRow where
  colspan4 : Bool
  tds : List String
deriving DecidableEq, Repr

/-- The located `table.sheetList`. -/
structure EcanTable where
  waybillTd : Option String
  rows : List EcanRow
deriving DecidableEq, Repr

/-- The parsed Ecan result page (`sheetList = none` when the table is
missing). -/
structure EcanDoc where
  sheetList : Option EcanTable
deriving DecidableEq, Repr

/-- One entry of the adapter's `details` list (the `日期`/`狀態`/`說明`/
`作業站` keys; `作業時間` duplicates `日期` and `貨物狀態`/`營業所` are
derived). -/
structure EcanDetail where
  date : String
  status : String
  desc : String
  station : String
deriving DecidableEq, Repr

/-- The event-row extraction of `convert`: skip the waybill row and rows
with fewer than four cells. -/
def ecanDetailsOfRows (rows : List EcanRow) : List EcanDetail :=
  rows.filterMap (fun r =>
    if r.colspan4 then none
    else if r.tds.length < 4 then none
    else
      some
        { date := r.tds.getD 0 ""
          status := r.tds.getD 1 ""
          desc := r.tds.getD 2 ""
          station := r.tds.getD 3 "" })

/-- The waybill extraction of `convert`: when the `colspan=4` cell exists
and mentions `單號`, drop the label, strip, and keep the part before the
first `-`. -/
def ecanWaybill (t : EcanTable) : Option String :=
  match t.waybillTd with
  | none => none
  | some txt =>
    if pyInStr "單號" txt then
      some ((((pyStrip (pyReplace (pyReplace txt "單號：" "") "單號:" "")).splitOn "-").headD ""))
    else none

/-- The delivered-keyword tests of `EcanTrackingInfoAdapter.convert`,
applied to `"{狀態} {說明}"` of the latest event. -/
def ecanDeliveredKeywords : List String :=
  ["配達完成", "已送達", "完成配達", "貨件送達"]

/-- `EcanTrackingInfoAdapter.convert`: missing table or no event rows ⇒
`None`; the first detail is the latest event (the site lists newest
first); `status` is `"{狀態}({作業站}) - {說明}"` stripped of spaces and
dashes at the ends; `time` is the `日期` text (the `作業時間` fallback of
the source holds the same text). -/
def ecanConvert (tracking_number : String) (doc : EcanDoc) :
    Option (TrackingInfo (List EcanDetail)) :=
  match doc.sheetList with
  | none => none
  | some table =>
    let waybill := ecanWaybill table
    match ecanDetailsOfRows table.rows with
    | [] => none
    | latest :: rest =>
      let delivered_text := latest.status ++ " " ++ latest.desc
      some
        { order_id := pyOrStr waybill (some tracking_number)
          platform := platformValue .Ecan
          status := stripChars [' ', '-']
            (latest.status ++ "(" ++ latest.station ++ ") - " ++ latest.desc)
          time := some latest.date
          is_delivered := ecanDeliveredKeywords.any (fun k => pyInStr k delivered_text)
          raw_data := latest :: rest }

/-! ### OKMart (src/cargo_tw/okmart.py)

`OKMartTracker.search` has no exception handling of its own.  The
environment gives the outcome of `_get_validate_code` (the regular
expression applied to the `Set-Cookie` header) and the parser output for
the result page; transport-level failures are outside the modelled
environment, as they are for every claim about parsed result pages. -/

/-- `OKMartResponseParser.parse`'s output: the stripped text of each
looked-up class, or `None` when the tag is missing. -/
structure OKRawData where
  triNo : Option String
  odNo : Option String
  typ : Option String
  status : Option String
  stNo : Option String
  stNm : Option String
  stNm2 : Option String
  takeFrom : Option String
  takeTo : Option String
  takeAt : Option String
  taker : Option String
deriving DecidableEq, Repr

/-- Environment of one OKMart lookup. -/
structure OkEnv where
  validateCode : Option String
  raw : OKRawData
deriving DecidableEq, Repr

/-- The keyword names `OKMartTracker._convert_to_tracking_info` passes to
the `TrackingInfo` constructor — note `is_arrived`, which is not a field
of the dataclass. -/
def okmartCallKwargs : List String :=
  ["order_id", "platform", "time", "status", "is_arrived", "raw_data"]

/-- `OKMartTracker._convert_to_tracking_info`: `None` when `odNo` is
absent; otherwise the keyword call of the dataclass constructor, which
raises `TypeError` because `is_arrived` is not among its fields (the
record in the other branch is what the call would build were the keywords
accepted; that branch is unreachable). -/
def okmartConvert (raw : OKRawData) :
    Except PyErr (Option (TrackingInfo OKRawData)) :=
  match raw.odNo with
  | none => .ok none
  | some odNo =>
    if kwCallBad okmartCallKwargs then .error .typeError
    else
      .ok (some
        { order_id := some odNo
          platform := "OKMart"
          status := raw.status.getD ""
          time := none
          is_delivered := raw.status = some "已送達" || raw.status = some "已取貨"
          raw_data := raw })

/-- `OKMartTracker.search`: a `None` validate code short-circuits to
`None`; otherwise the result page is parsed and converted, and the
conversion's `TypeError` propagates (nothing catches it). -/
def okmartSearch (env : OkEnv) (_order_id : String) :
    Except PyErr (Option (TrackingInfo OKRawData)) :=
  match env.validateCode with
  | none => .ok none
  | some _ => okmartConvert env.raw

/-! ### The public `track` operation (src/parcel_tw/track.py) -/

/-- The tracker classes `TrackerFactory.create` can instantiate. -/
inductive TrackerKind
  | sevenEleven
  | familyMart
  | okMart
deriving DecidableEq, Repr

/-- `TrackerFactory.create`: the three supported platforms instantiate
their tracker classes, anything else raises `ValueError`.
`SevenElevenTracker` and `OKMartTracker` subclass the `Tracker` ABC but
never override its abstract `track_status` (they define `search`
instead), so Python refuses to instantiate them: `SevenElevenTracker()`
and `OKMartTracker()` raise `TypeError` inside `create`.
`FamilyMartTracker` does implement `track_status` and is instantiable. -/
def trackerFactoryCreate : Platform → Except PyErr TrackerKind
  | .SevenEleven => .error .typeError
  | .FamilyMart => .ok .familyMart
  | .OKMart => .error .typeError
  | _ => .error .valueError

/-- The method names each tracker class defines (including those of the
abstract `Tracker` base, which declares only `track_status`): from
src/parcel_tw/seven_eleven.py, src/parcel_tw/family_mart.py and
src/cargo_tw/okmart.py. -/
def trackerClassMethods : TrackerKind → List String
  | .sevenEleven =>
    ["__init__", "search", "_validate_order_id", "_get_search_page",
     "_construct_payload", "_get_payload_value", "_get_validate_image",
     "_get_validate_code", "_send_post_request", "_captcha_error",
     "_convert_to_tracking_info", "track_status"]
  | .familyMart => ["__init__", "track_status"]
  | .okMart =>
    ["__init__", "search", "_get_validate_code", "_get_search_result",
     "_convert_to_tracking_info", "track_status"]

/-- A successful lookup result of `track`, per dispatched carrier. -/
inductive TrackResult
  | seven (ti : TrackingInfo SevenRaw)
  | okmart (ti : TrackingInfo OKRawData)
deriving DecidableEq, Repr

/-- The attribute lookup `tracker.search` and its call: defined for the
7-11 and OKMart trackers; `FamilyMartTracker` (like the abstract `Tracker`
base) defines only `track_status`, so the lookup raises
`AttributeError`. -/
def trackerSearch (k : TrackerKind) (order_id : String)
    (envS : SevenEnv) (envO : OkEnv) : Except PyErr (Option TrackResult) :=
  match k with
  | .sevenEleven => ((sevenSearch envS order_id).1).map (Option.map .seven)
  | .okMart => (okmartSearch envO order_id).map (Option.map .okmart)
  | .familyMart => .error (.attributeError "search")

/-- `track(platform, order_id)` of src/parcel_tw/track.py: create the
tracker for the platform and call `tracker.search(order_id)`. -/
def track (platform : Platform) (order_id : String)
    (envS : SevenEnv) (envO : OkEnv) : Except PyErr (Option TrackResult) :=
  match trackerFactoryCreate platform with
  | .error e => .error e
  | .ok k => trackerSearch k order_id envS envO

/-! ### Auxiliary definitions for the statements and their witnesses -/

/-- The canonical `YYYY/MM/DD HH:MM` timestamp shape of the spec's data
model (sixteen characters, zero-padded fields). -/
def isCanonicalTs (s : String) : Bool :=
  match s.toList with
  | [a, b, c, d, s1, e, f, s2, g, h, sp, i, j, c1, k, l] =>
    charIsDigit a && charIsDigit b && charIsDigit c && charIsDigit d &&
    s1 = '/' && charIsDigit e && charIsDigit f && s2 = '/' &&
    charIsDigit g && charIsDigit h && sp = ' ' &&
    charIsDigit i && charIsDigit j && c1 = ':' &&
    charIsDigit k && charIsDigit l
  | _ => false

/-- A solver attempt whose very first step (the challenge-page GET) raises:
the attempt transitions to the retry path. -/
def hctAttemptEnvFail : HctAttemptEnv :=
  ⟨.error (), none, none, .error (), .error ()⟩

/-- Tokens used by concrete solver environments. -/
def hctTokensW : Tokens := ⟨"vs", some "g", some "e"⟩

/-- A solver attempt that reaches a shape-valid candidate: page and image
return 200 with content, tokens and image URL are present, and the OCR
yields `" 1234 "` (stripping to four characters). -/
def hctAttemptEnvOk : HctAttemptEnv :=
  ⟨.ok ⟨200, true⟩, some hctTokensW, some "img", .ok ⟨200, true⟩,
    .ok (some " 1234 ")⟩

/-- A lookup environment whose solver attempts all fail. -/
def hctEnvAllFail : HctEnv :=
  ⟨fun _ => hctAttemptEnvFail, .ok ⟨200, true⟩, some ("n", "c"),
    .ok ⟨200, true⟩, []⟩

/-- A lookup environment whose first solver attempt succeeds but whose
middle (primary submission) POST raises a transport error. -/
def hctEnvMiddleFail : HctEnv :=
  ⟨fun _ => hctAttemptEnvOk, .error (), some ("n", "c"), .ok ⟨200, true⟩, []⟩

/-- The `table.sheetList` of the end-to-end scenario: a waybill row
followed by two events, newest first — a delivered event at
`2025/12/19 14:42`, then an older arrival notice. -/
def ecanScenarioTable : EcanTable :=
  ⟨some "單號：577293125651-001",
   [⟨true, ["單號：577293125651-001"]⟩,
    ⟨false, ["2025/12/19 14:42", "已送達", "包裹已送達取件門市", "台北站"]⟩,
    ⟨false, ["2025/12/18 09:00", "到著", "貨件到著營業所通知取件", "台北站"]⟩]⟩

/-- The parsed scenario page. -/
def ecanScenarioDoc : EcanDoc := ⟨some ecanScenarioTable⟩

/-- The latest (first) event of the scenario. -/
def ecanScenarioLatest : EcanDetail :=
  ⟨"2025/12/19 14:42", "已送達", "包裹已送達取件門市", "台北站"⟩

/-- The older event of the scenario. -/
def ecanScenarioOlder : EcanDetail :=
  ⟨"2025/12/18 09:00", "到著", "貨件到著營業所通知取件", "台北站"⟩

/-- A successfully parsed 7-11 response: no captcha error, the info block
holds the queried number, and `m_news` carries a status followed by a
timestamp. -/
def sevenRawC4 : SevenRaw :=
  ⟨"success", some "配送中2025/12/19 14:42:33",
   some [("query_no", "12345678")], []⟩

/-- A 7-11 lookup environment whose first iteration fails at the business
POST (non-200) and whose second iteration succeeds. -/
def sevenEnvC4 : SevenEnv :=
  ⟨fun i => if i = 0 then .postFail else .parsed sevenRawC4⟩

/-- A parsed OKMart result page whose `odNo` is present. -/
def okRawW : OKRawData :=
  ⟨some "T1", some "OD123", some "店到店", some "已送達", some "1234",
   some "某門市", some "某地址", some "2025/12/18", some "2025/12/25",
   none, none⟩

/-! ## Theorems -/

/-- After `j` failed attempts starting at `first`, a success at attempt
`first + j` makes the solver return that attempt's tokens and candidate
with exactly `j` reset/backoff cycles and `j + 1` page fetches. -/
theorem hctSolverAux_success (env : Nat → HctAttemptEnv) :
    ∀ (j first fuel : Nat) (t : Tokens) (c : String), j < fuel →
    (∀ i, first ≤ i → i < first + j → hctAttempt (env i) = .retry) →
    hctAttempt (env (first + j)) = .success t c →
    hctSolverAux env first fuel = ⟨.ok (t, c), j, j + 1⟩ := by
  intro j
  induction j with
  | zero =>
    intro first fuel t c hj _ hsucc
    match fuel, hj with
    | fuel + 1, _ =>
      simp only [hctSolverAux]
      rw [Nat.add_zero] at hsucc
      rw [hsucc]
  | succ j ih =>
    intro first fuel t c hj hfail hsucc
    match fuel, hj with
    | fuel + 1, hj =>
      have hre : hctAttempt (env first) = .retry :=
        hfail first (Nat.le_refl first) (by omega)
      simp only [hctSolverAux]
      rw [hre]
      have hrec := ih (first + 1) fuel t c (by omega)
        (fun i h1 h2 => hfail i (by omega) (by omega))
        (by rw [show first + 1 + j = first + (j + 1) by omega]; exact hsucc)
      rw [hrec]

/-- When every attempt in the window fails, the solver raises the
max-attempts exception after `fuel` reset/backoff cycles. -/
theorem hctSolverAux_exhaust (env : Nat → HctAttemptEnv) :
    ∀ (fuel first : Nat),
    (∀ i, first ≤ i → i < first + fuel → hctAttempt (env i) = .retry) →
    hctSolverAux env first fuel =
      ⟨.error (.exn "超過最大嘗試次數，無法取得有效驗證碼"), fuel, fuel⟩ := by
  intro fuel
  induction fuel with
  | zero => intro first _; rfl
  | succ fuel ih =>
    intro first hfail
    have hre : hctAttempt (env first) = .retry :=
      hfail first (Nat.le_refl first) (by omega)
    simp only [hctSolverAux]
    rw [hre, ih (first + 1) (fun i h1 h2 => hfail i (by omega) (by omega))]

/-- C2: if attempts 1..k of the HCT challenge solver all fail (at the
shape validation or any earlier stage) and attempt `k + 1` reaches a
candidate passing the shape validator (`k` below the `MAX_ATTEMPTS`
ceiling), the solver returns that attempt's tokens together with the
candidate, after exactly `k` session-reset/backoff cycles. -/
theorem hct_solver_succeeds_after_k_failed_attempts
    (env : Nat → HctAttemptEnv) (k : Nat) (t : Tokens) (c : String)
    (hk : k < MAX_ATTEMPTS)
    (hfail : ∀ i, 1 ≤ i → i ≤ k → hctAttempt (env i) = .retry)
    (hsucc : hctAttempt (env (k + 1)) = .success t c) :
    hctGetCaptchaAndTokens env = ⟨.ok (t, c), k, k + 1⟩ := by
  unfold hctGetCaptchaAndTokens
  exact hctSolverAux_success env k 1 MAX_ATTEMPTS t c hk
    (fun i h1 h2 => hfail i h1 (by omega))
    (by rw [show 1 + k = k + 1 by omega]; exact hsucc)

/-- Witness for C2: with failures at attempts 1 and 2 and a success at
attempt 3, the solver returns attempt 3's tokens and candidate after
exactly 2 reset/backoff cycles. -/
theorem hct_solver_succeeds_after_k_failed_attempts_witness :
    hctGetCaptchaAndTokens
        (fun i => if i = 3 then hctAttemptEnvOk else hctAttemptEnvFail) =
      ⟨.ok (hctTokensW, "1234"), 2, 3⟩ :=
  hct_solver_succeeds_after_k_failed_attempts
    (fun i => if i = 3 then hctAttemptEnvOk else hctAttemptEnvFail)
    2 hctTokensW "1234" (by decide)
    (fun i h1 h2 => by interval_cases i <;> rfl) (by decide)

/-- C3: if the captcha shape validator never succeeds within the
`MAX_ATTEMPTS = 5` ceiling, the challenge loop terminates in the
max-attempts failure (after exactly 5 reset/backoff cycles, not more),
and `HctTracker.track_status` returns `None`. -/
theorem hct_challenge_exhaustion_yields_absent (env : HctEnv) (tn : String)
    (hfail : ∀ i, 1 ≤ i → i ≤ MAX_ATTEMPTS →
      hctAttempt (env.attempts i) = .retry) :
    (hctGetCaptchaAndTokens env.attempts).result =
      .error (.exn "超過最大嘗試次數，無法取得有效驗證碼") ∧
    (hctGetCaptchaAndTokens env.attempts).resets = MAX_ATTEMPTS ∧
    hctTrackStatus env tn = none := by
  have h := hctSolverAux_exhaust env.attempts MAX_ATTEMPTS 1
    (fun i h1 h2 => hfail i h1 (by omega))
  have hsolver : hctGetCaptchaAndTokens env.attempts =
      ⟨.error (.exn "超過最大嘗試次數，無法取得有效驗證碼"),
        MAX_ATTEMPTS, MAX_ATTEMPTS⟩ := h
  refine ⟨by rw [hsolver], by rw [hsolver], ?_⟩
  unfold hctTrackStatus hctGetData
  rw [hsolver]
  rfl

/-- Witness for C3: an environment whose every attempt fails at the
challenge-page fetch exhausts the solver and the lookup is absent. -/
theorem hct_challenge_exhaustion_yields_absent_witness :
    (hctGetCaptchaAndTokens hctEnvAllFail.attempts).resets = MAX_ATTEMPTS ∧
    hctTrackStatus hctEnvAllFail "12345678901" = none :=
  ⟨(hct_challenge_exhaustion_yields_absent hctEnvAllFail "12345678901"
      (fun i h1 h2 => rfl)).2.1,
   (hct_challenge_exhaustion_yields_absent hctEnvAllFail "12345678901"
      (fun i h1 h2 => rfl)).2.2⟩

/-- `sevenLoopTrace` is the same loop as `sevenLoop`: for every
environment, starting counter, fuel and accumulated `raw_data`, the trace
length equals the request count `sevenLoop` reports. -/
theorem sevenLoopTrace_length (env : SevenEnv) :
    ∀ (fuel counter : Nat) (raw : Option SevenRaw),
    (sevenLoopTrace env counter fuel).length =
      (sevenLoop env counter fuel raw).2 := by
  intro fuel
  induction fuel with
  | zero => intro counter raw; rfl
  | succ fuel ih =>
    intro counter raw
    simp only [sevenLoopTrace, sevenLoop]
    cases hi : env.iter counter
    case pageRaise => rfl
    case pageFail => simp [ih (counter + 1) raw]
    case payloadRaise => rfl
    case postRaise => rfl
    case postFail => simp [ih (counter + 1) raw]
    case parsed raw2 =>
      by_cases hmsg : raw2.msg = "驗證碼錯誤!!"
      · simp [hmsg, ih (counter + 1) (some raw2)]
      · simp [hmsg]

/-- Every iteration of the 7-11 loop sends at most one business POST, so
a loop bounded by `fuel` iterations sends at most `fuel` of them. -/
theorem sevenLoopTrace_count_post_le (env : SevenEnv) :
    ∀ (fuel counter : Nat),
    (sevenLoopTrace env counter fuel).count SevenReq.businessPost ≤ fuel := by
  intro fuel
  induction fuel with
  | zero => intro counter; simp [sevenLoopTrace]
  | succ fuel ih =>
    intro counter
    simp only [sevenLoopTrace]
    cases hi : env.iter counter
    case pageRaise => simp
    case pageFail =>
      have := ih (counter + 1)
      simp [List.count_cons]
      omega
    case payloadRaise => simp
    case postRaise => simp [List.count_cons]
    case postFail =>
      have := ih (counter + 1)
      simp [List.count_cons]
      omega
    case parsed raw2 =>
      by_cases hmsg : raw2.msg = "驗證碼錯誤!!"
      · have := ih (counter + 1)
        simp [hmsg, List.count_cons]
        omega
      · simp [hmsg, List.count_cons]

/-- C4 counterexample: in the cited `SevenElevenTracker.search`, a
non-success response on the business POST does not fail the lookup — the
loop runs a second challenge attempt (a second search-page fetch) and
re-submits the business query (two business POSTs in the trace, six
requests in all), and the lookup then returns a tracking record. -/
theorem seven_eleven_resubmits_business_query_after_failed_post :
    (sevenLoopTrace sevenEnvC4 0 5).count SevenReq.businessPost = 2 ∧
    (sevenLoopTrace sevenEnvC4 0 5).count SevenReq.pageGet = 2 ∧
    (sevenSearch sevenEnvC4 "12345678").2 = 6 ∧
    ∃ ti, (sevenSearch sevenEnvC4 "12345678").1 = .ok (some ti) :=
  ⟨by decide, by decide, by decide, ⟨_, rfl⟩⟩

/-- C4 amended: for HCT, the primary business submission POST of
`HctRequestHandler` is issued at most once per lookup — once the
challenge is solved, a transport failure or a non-success response on
that POST fails the whole lookup immediately (no further challenge
attempts, no re-submission, no final POST) and the tracker returns
`None`; the 7-11 tracker instead treats a non-success business POST as a
retryable failure, re-running the challenge and re-submitting the
business query, its retry ceiling bounding the lookup to at most five
business POSTs. -/
theorem primary_submission_retry_policy :
    (∀ env tn, (hctGetData env tn).middlePosts ≤ 1) ∧
    (∀ (env : HctEnv) (tn : String) (t : Tokens) (c : String),
      (hctGetCaptchaAndTokens env.attempts).result = .ok (t, c) →
      (env.middleResult = .error () ∨
        ∃ r, env.middleResult = .ok r ∧ (r.status ≠ 200 ∨ r.hasContent = false)) →
      (∃ e, (hctGetData env tn).result = .error e) ∧
      (hctGetData env tn).middlePosts = 1 ∧
      (hctGetData env tn).finalPosts = 0 ∧
      (hctGetData env tn).resets = (hctGetCaptchaAndTokens env.attempts).resets ∧
      (hctGetData env tn).pageFetches =
        (hctGetCaptchaAndTokens env.attempts).pageFetches ∧
      hctTrackStatus env tn = none) ∧
    (∀ env : SevenEnv,
      (sevenLoopTrace env 0 5).count SevenReq.businessPost ≤ 5) := by
  refine ⟨?_, ?_, fun env => sevenLoopTrace_count_post_le env 5 0⟩
  · intro env tn
    unfold hctGetData hctGetDataAfterSolve
    repeat' split
    all_goals dsimp only
    all_goals omega
  · intro env tn t c hs hm
    rcases hm with hm | ⟨r, hr, hcond⟩
    · unfold hctTrackStatus hctGetData hctGetDataAfterSolve
      rw [hs, hm]
      exact ⟨⟨_, rfl⟩, rfl, rfl, rfl, rfl, rfl⟩
    · unfold hctTrackStatus hctGetData hctGetDataAfterSolve
      rw [hs, hr]
      dsimp only
      rw [if_pos hcond]
      exact ⟨⟨_, rfl⟩, rfl, rfl, rfl, rfl, rfl⟩

/-- Witness for the amended C4: solved HCT challenge, middle POST raises
— the data request fails with exactly one primary submission and the
lookup is absent; and a concrete 7-11 environment stays within five
business POSTs. -/
theorem primary_submission_retry_policy_witness :
    (hctGetData hctEnvMiddleFail "ABC").middlePosts = 1 ∧
    (hctGetData hctEnvMiddleFail "ABC").finalPosts = 0 ∧
    hctTrackStatus hctEnvMiddleFail "ABC" = none ∧
    (hctGetData hctEnvAllFail "ABC").middlePosts ≤ 1 ∧
    (sevenLoopTrace ⟨fun _ => .postFail⟩ 0 5).count SevenReq.businessPost ≤ 5 :=
  ⟨(primary_submission_retry_policy.2.1 hctEnvMiddleFail "ABC" hctTokensW
      "1234" rfl (Or.inl rfl)).2.1,
   (primary_submission_retry_policy.2.1 hctEnvMiddleFail "ABC" hctTokensW
      "1234" rfl (Or.inl rfl)).2.2.1,
   (primary_submission_retry_policy.2.1 hctEnvMiddleFail "ABC" hctTokensW
      "1234" rfl (Or.inl rfl)).2.2.2.2.2,
   primary_submission_retry_policy.1 hctEnvAllFail "ABC",
   primary_submission_retry_policy.2.2 ⟨fun _ => .postFail⟩⟩

/-- C8: an identifier whose length is not 8, 11 or 12 makes
`SevenElevenTracker.search` return `None` immediately, with zero network
requests (no session state is touched). -/
theorem seven_eleven_invalid_length_short_circuits
    (env : SevenEnv) (order_id : String)
    (h : sevenValidateOrderId order_id = false) :
    sevenSearch env order_id = (.ok none, 0) := by
  unfold sevenSearch
  rw [h]
  rfl

/-- Witness for C8: a 7-character identifier is rejected without any
request, for an environment that would otherwise respond. -/
theorem seven_eleven_invalid_length_short_circuits_witness :
    sevenSearch ⟨fun _ => .pageFail⟩ "1234567" = (.ok none, 0) :=
  seven_eleven_invalid_length_short_circuits ⟨fun _ => .pageFail⟩ "1234567"
    (by decide)

/-- C9: `track` dispatches by calling `tracker.search`, but
`FamilyMartTracker` (and the abstract `Tracker` base) defines only
`track_status`, so `track(Platform.FamilyMart, order_id)` raises
`AttributeError` for every identifier and every environment, never
returning a `TrackingInfo` or an absent result. -/
theorem track_familymart_raises_attribute_error :
    (∀ (order_id : String) (envS : SevenEnv) (envO : OkEnv),
      track .FamilyMart order_id envS envO = .error (.attributeError "search")) ∧
    (trackerClassMethods .familyMart).contains "search" = false ∧
    (trackerClassMethods .familyMart).contains "track_status" = true :=
  ⟨fun _ _ _ => rfl, by decide, by decide⟩

/-- C10: `OKMartTracker._convert_to_tracking_info` calls the
`TrackingInfo` constructor with the keyword `is_arrived`, which is not
among the dataclass's fields (`is_delivered` is), so the keyword call is
a `TypeError`; consequently `OKMartTracker.search` never returns a
tracking record: it returns `None` exactly when the validate code or the
parsed `odNo` is absent, and raises `TypeError` otherwise. -/
theorem okmart_search_never_returns_tracking_info :
    kwCallBad okmartCallKwargs = true ∧
    trackingInfoFields.contains "is_arrived" = false ∧
    trackingInfoFields.contains "is_delivered" = true ∧
    ∀ (env : OkEnv) (order_id : String),
      okmartSearch env order_id =
        (match env.validateCode, env.raw.odNo with
         | none, _ => .ok none
         | some _, none => .ok none
         | some _, some _ => .error .typeError) := by
  refine ⟨by decide, by decide, by decide, ?_⟩
  intro env order_id
  unfold okmartSearch okmartConvert
  cases hv : env.validateCode <;> cases ho : env.raw.odNo <;>
    simp [hv, ho, show kwCallBad okmartCallKwargs = true from by decide]

/-- C1 counterexample: the 7-11 tracker does not catch exceptions from
its request-handling layer — with a valid-length identifier and a
transport exception on the first search-page GET, `search` propagates the
exception to the caller instead of returning `None`. -/
theorem seven_eleven_search_propagates_transport_error :
    (sevenSearch ⟨fun _ => .pageRaise⟩ "12345678").1 = .error .transport := rfl

/-- C1 amended: the FamilyMart and HCT trackers catch every exception
raised by their request-handling layer and convert it to an absent
result, but the 7-11 and OKMart trackers propagate exceptions raised
during their lookups to the caller. -/
theorem error_handling_per_tracker :
    (∀ (e : PyErr) (order_id : String),
      famTrackStatus (.error e) order_id = none) ∧
    (∀ (env : HctEnv) (tn : String) (e : PyErr),
      (hctGetData env tn).result = .error e → hctTrackStatus env tn = none) ∧
    (∀ (env : SevenEnv) (order_id : String),
      sevenValidateOrderId order_id = true → env.iter 0 = .pageRaise →
      (sevenSearch env order_id).1 = .error .transport) ∧
    (∀ (env : OkEnv) (order_id code odNo : String),
      env.validateCode = some code → env.raw.odNo = some odNo →
      okmartSearch env order_id = .error .typeError) := by
  refine ⟨fun _ _ => rfl, ?_, ?_, ?_⟩
  · intro env tn e h
    unfold hctTrackStatus
    rw [h]
  · intro env order_id hvalid hiter
    unfold sevenSearch
    rw [hvalid]
    show (match sevenLoop env 0 5 none with
      | (.error e, n) => ((.error e : Except PyErr (Option (TrackingInfo SevenRaw))), n)
      | (.ok raw, n) => (sevenConvert raw, n)).1 = .error .transport
    rw [show (5 : Nat) = 4 + 1 from rfl]
    unfold sevenLoop
    rw [hiter]
  · intro env order_id code odNo hv ho
    unfold okmartSearch okmartConvert
    rw [hv, ho]
    simp [show kwCallBad okmartCallKwargs = true from by decide]

/-- Witness for the amended C1: a FamilyMart request-layer exception and
an HCT exhaustion both yield `None`; a 7-11 transport exception and the
OKMart conversion `TypeError` both propagate. -/
theorem error_handling_per_tracker_witness :
    famTrackStatus (.error .transport) "1234567890" = none ∧
    hctTrackStatus hctEnvAllFail "98765" = none ∧
    (sevenSearch ⟨fun _ => .pageRaise⟩ "123456789012").1 = .error .transport ∧
    okmartSearch ⟨some "54321", okRawW⟩ "X1" = .error .typeError :=
  ⟨error_handling_per_tracker.1 .transport "1234567890",
   error_handling_per_tracker.2.1 hctEnvAllFail "98765"
     (.exn "超過最大嘗試次數，無法取得有效驗證碼") rfl,
   error_handling_per_tracker.2.2.1 ⟨fun _ => .pageRaise⟩ "123456789012"
     (by decide) rfl,
   error_handling_per_tracker.2.2.2 ⟨some "54321", okRawW⟩ "X1" "54321"
     "OD123" rfl rfl⟩

/-- `Nat.digitChar` of a value at most 9 is an ASCII digit. -/
theorem charIsDigit_digitChar {k : Nat} (h : k ≤ 9) :
    charIsDigit (Nat.digitChar k) = true := by
  interval_cases k <;> decide

/-- No month has more than 31 days. -/
theorem daysInMonth_le (y m : Nat) : daysInMonth y m ≤ 31 := by
  unfold daysInMonth
  repeat' split
  all_goals omega

/-- The ranges `parseStrptime` guarantees for the fields it renders. -/
theorem parseStrptime_bounds {s : String} {dt : PyDateTime}
    (h : parseStrptime s = some dt) :
    dt.y ≤ 9999 ∧ dt.mo ≤ 12 ∧ dt.d ≤ 31 ∧ dt.h ≤ 23 ∧ dt.mi ≤ 59 := by
  unfold parseStrptime at h
  repeat' split at h
  all_goals try exact Option.noConfusion h
  rename_i hguard
  rcases hguard with ⟨g1, g2, g3, g4, g5, g6, g7, g8, g9⟩
  rw [Option.some.injEq] at h
  subst h
  dsimp only
  exact ⟨g2, g4, g6.trans (daysInMonth_le _ _), g7, g8⟩

/-- The canonical render of any parsed datetime has the canonical
`YYYY/MM/DD HH:MM` shape. -/
theorem isCanonicalTs_renderDt {dt : PyDateTime}
    (hy : dt.y ≤ 9999) (hmo : dt.mo ≤ 12) (hd : dt.d ≤ 31)
    (hh : dt.h ≤ 23) (hmi : dt.mi ≤ 59) :
    isCanonicalTs (renderDt dt) = true := by
  have p1 : charIsDigit (Nat.digitChar (dt.y / 1000)) = true :=
    charIsDigit_digitChar (by omega)
  have p2 : charIsDigit (Nat.digitChar (dt.y / 100 % 10)) = true :=
    charIsDigit_digitChar (by omega)
  have p3 : charIsDigit (Nat.digitChar (dt.y / 10 % 10)) = true :=
    charIsDigit_digitChar (by omega)
  have p4 : charIsDigit (Nat.digitChar (dt.y % 10)) = true :=
    charIsDigit_digitChar (by omega)
  have p5 : charIsDigit (Nat.digitChar (dt.mo / 10)) = true :=
    charIsDigit_digitChar (by omega)
  have p6 : charIsDigit (Nat.digitChar (dt.mo % 10)) = true :=
    charIsDigit_digitChar (by omega)
  have p7 : charIsDigit (Nat.digitChar (dt.d / 10)) = true :=
    charIsDigit_digitChar (by omega)
  have p8 : charIsDigit (Nat.digitChar (dt.d % 10)) = true :=
    charIsDigit_digitChar (by omega)
  have p9 : charIsDigit (Nat.digitChar (dt.h / 10)) = true :=
    charIsDigit_digitChar (by omega)
  have p10 : charIsDigit (Nat.digitChar (dt.h % 10)) = true :=
    charIsDigit_digitChar (by omega)
  have p11 : charIsDigit (Nat.digitChar (dt.mi / 10)) = true :=
    charIsDigit_digitChar (by omega)
  have p12 : charIsDigit (Nat.digitChar (dt.mi % 10)) = true :=
    charIsDigit_digitChar (by omega)
  simp [isCanonicalTs, renderDt, String.toList,
    p1, p2, p3, p4, p5, p6, p7, p8, p9, p10, p11, p12]

/-- A timestamp-shaped character run has exactly 19 characters. -/
theorem sevenTsShape_length {cs : List Char} (h : sevenTsShape cs = true) :
    cs.length = 19 := by
  unfold sevenTsShape at h
  split at h
  · simp_all
  · exact absurd h (by simp)

/-- A canonically-shaped timestamp has exactly 16 characters. -/
theorem isCanonicalTs_length {s : String} (h : isCanonicalTs s = true) :
    s.length = 16 := by
  unfold isCanonicalTs at h
  split at h
  · rename_i heq
    show s.toList.length = 16
    rw [heq]
    rfl
  · exact absurd h (by simp)

/-- The timestamp group of a successful `m_news` match is the raw
19-character `YYYY/MM/DD HH:MM:SS` run of the first line. -/
theorem sevenNewsMatch_ts {m st ts : String}
    (h : sevenNewsMatch m = some (st, ts)) :
    ts.length = 19 ∧ isCanonicalTs ts = false := by
  unfold sevenNewsMatch at h
  split at h
  · exact absurd h (by simp)
  · rename_i i hlast
    have hpair := Option.some.inj h
    have hts : ts = ⟨((sevenNewsLine m).drop i).take 19⟩ :=
      (congrArg Prod.snd hpair).symm
    have hmem : i ∈ sevenNewsIdxs m := by
      obtain ⟨ys, hys⟩ := List.getLast?_eq_some_iff.mp hlast
      rw [hys]
      exact List.mem_append.mpr (Or.inr (List.mem_singleton.mpr rfl))
    have hshape := (List.mem_filter.mp hmem).2
    have hlen : ts.length = 19 := by
      rw [hts]
      exact sevenTsShape_length hshape
    refine ⟨hlen, ?_⟩
    cases hc : isCanonicalTs ts with
    | false => rfl
    | true => exact absurd (isCanonicalTs_length hc) (by omega)

/-- C5 counterexample: `_normalize_time` does not pass an unparseable
timestamp through unmodified — on the already-canonical text
`"2025/12/16 05:08"` it returns `"2025/12/16T05:08"`, with the space
replaced by `T`. -/
theorem ktj_normalize_time_modifies_unparsed_text :
    ktjNormalizeTime (some "2025/12/16 05:08") = some "2025/12/16T05:08" ∧
    ("2025/12/16T05:08" : String) ≠ "2025/12/16 05:08" :=
  ⟨by decide, by decide⟩

/-- C5 amended: KTJ's `_normalize_time` yields the canonical
`YYYY/MM/DD HH:MM` form exactly when the *preprocessed* text (stripped,
spaces replaced by `T`, fractional seconds dropped, `":00"` appended to a
seconds-less shape) parses as a valid datetime, and otherwise passes that
preprocessed text — not the raw text — through; falsy input gives an
absent time and the timestamp never fails the conversion.  The 7-11
adapter does not normalize at all: on a match it copies the raw
19-character `YYYY/MM/DD HH:MM:SS` run (never the canonical 16-character
form), and an `m_news` without a timestamp makes the conversion return
absent. -/
theorem time_normalization_behaviour :
    ktjNormalizeTime none = none ∧
    ktjNormalizeTime (some "") = none ∧
    (∀ (s : String) (dt : PyDateTime), s ≠ "" →
      parseStrptime (ktjPre s) = some dt →
      ktjNormalizeTime (some s) = some (renderDt dt) ∧
        isCanonicalTs (renderDt dt) = true) ∧
    (∀ s : String, s ≠ "" → parseStrptime (ktjPre s) = none →
      ktjNormalizeTime (some s) = some (ktjPre s)) ∧
    (∀ (r : SevenRaw) (info : List (String × String)) (q m : String),
      r.info = some info → info.lookup "query_no" = some q →
      r.m_news = some m → sevenNewsMatch m = none →
      sevenConvert (some r) = .ok none) ∧
    (∀ (r : SevenRaw) (info : List (String × String)) (q m st ts : String),
      r.info = some info → info.lookup "query_no" = some q →
      r.m_news = some m → sevenNewsMatch m = some (st, ts) →
      ∃ ti, sevenConvert (some r) = .ok (some ti) ∧ ti.time = some ts ∧
        ts.length = 19 ∧ isCanonicalTs ts = false) := by
  refine ⟨rfl, rfl, ?_, ?_, ?_, ?_⟩
  · intro s dt hs hparse
    have hn : ktjNormalizeTime (some s) = some (renderDt dt) := by
      unfold ktjNormalizeTime
      dsimp only
      rw [if_neg hs, hparse]
    obtain ⟨hy, hmo, hd, hh, hmi⟩ := parseStrptime_bounds hparse
    exact ⟨hn, isCanonicalTs_renderDt hy hmo hd hh hmi⟩
  · intro s hs hparse
    unfold ktjNormalizeTime
    dsimp only
    rw [if_neg hs, hparse]
  · intro r info q m h1 h2 h3 h4
    unfold sevenConvert
    dsimp only
    rw [h1]
    dsimp only
    rw [h2]
    dsimp only
    rw [h3]
    dsimp only
    rw [h4]
  · intro r info q m st ts h1 h2 h3 h4
    obtain ⟨hlen, hcanon⟩ := sevenNewsMatch_ts h4
    have hc : sevenConvert (some r) = .ok (some
        { order_id := some q
          platform := "7-11"
          status := st
          time := some ts
          is_delivered :=
            pyInStr "包裹配達取件門市" st || pyInStr "已完成包裹成功取件" st
          raw_data := r }) := by
      unfold sevenConvert
      dsimp only
      rw [h1]
      dsimp only
      rw [h2]
      dsimp only
      rw [h3]
      dsimp only
      rw [h4]
    exact ⟨_, hc, rfl, hlen, hcanon⟩

/-- Witness for the amended C5: a millisecond-bearing KTJ timestamp is
normalized to the canonical form, and an unparseable one is passed
through preprocessed. -/
theorem time_normalization_behaviour_witness :
    (ktjNormalizeTime (some "2025-12-16 05:08:33.000") =
        some (renderDt ⟨2025, 12, 16, 5, 8, 33⟩) ∧
      isCanonicalTs (renderDt ⟨2025, 12, 16, 5, 8, 33⟩) = true) ∧
    ktjNormalizeTime (some "not a timestamp") = some (ktjPre "not a timestamp") :=
  ⟨time_normalization_behaviour.2.2.1 "2025-12-16 05:08:33.000"
      ⟨2025, 12, 16, 5, 8, 33⟩ (by decide) (by decide),
   time_normalization_behaviour.2.2.2.1 "not a timestamp" (by decide) (by decide)⟩

/-- C6: when the parsed status-event list is non-empty, the Ecan and HCT
adapters take its first element as the authoritative latest event and
derive `status`, `time` and `is_delivered` from it; in the end-to-end
scenario (newest-first `已送達` event at `2025/12/19 14:42` followed by an
older event) conversion yields `is_delivered = true` and
`time = "2025/12/19 14:42"`. -/
theorem adapter_selects_first_event :
    (∀ (tn : String) (doc : EcanDoc) (table : EcanTable) (d : EcanDetail)
        (rest : List EcanDetail),
      doc.sheetList = some table →
      ecanDetailsOfRows table.rows = d :: rest →
      ecanConvert tn doc = some
        { order_id := pyOrStr (ecanWaybill table) (some tn)
          platform := platformValue .Ecan
          status := stripChars [' ', '-']
            (d.status ++ "(" ++ d.station ++ ") - " ++ d.desc)
          time := some d.date
          is_delivered := ecanDeliveredKeywords.any
            (fun k => pyInStr k (d.status ++ " " ++ d.desc))
          raw_data := d :: rest }) ∧
    (∀ (tn : String) (rows : List HctGridRow) (d : HctRecord)
        (rest : List HctRecord),
      hctRecordsOfRows rows = d :: rest →
      hctConvert tn rows = some
        { order_id := some tn
          platform := platformValue .Hct
          status := d.state
          time := some d.optime
          is_delivered := pyInStr "送達" d.state
          raw_data := d :: rest }) ∧
    (∃ ti, ecanConvert "X" ecanScenarioDoc = some ti ∧
      ti.is_delivered = true ∧ ti.time = some "2025/12/19 14:42") := by
  refine ⟨?_, ?_, ?_⟩
  · intro tn doc table d rest h1 h2
    unfold ecanConvert
    rw [h1]
    dsimp only
    rw [h2]
  · intro tn rows d rest h
    unfold hctConvert
    rw [h]
  · exact ⟨_, rfl, rfl, rfl⟩

/-- Witness for C6: the scenario document converts to the record derived
from its first event. -/
theorem adapter_selects_first_event_witness :
    ecanConvert "X" ecanScenarioDoc = some
      { order_id := pyOrStr (ecanWaybill ecanScenarioTable) (some "X")
        platform := platformValue .Ecan
        status := stripChars [' ', '-']
          (ecanScenarioLatest.status ++ "(" ++ ecanScenarioLatest.station ++
            ") - " ++ ecanScenarioLatest.desc)
        time := some ecanScenarioLatest.date
        is_delivered := ecanDeliveredKeywords.any
          (fun k => pyInStr k (ecanScenarioLatest.status ++ " " ++
            ecanScenarioLatest.desc))
        raw_data := [ecanScenarioLatest, ecanScenarioOlder] } :=
  adapter_selects_first_event.1 "X" ecanScenarioDoc ecanScenarioTable
    ecanScenarioLatest [ecanScenarioOlder] rfl (by decide)

/-- C7: for KTJ, FamilyMart and Ecan, the `is_delivered` field of a
constructed `TrackingInfo` is `true` exactly when the carrier's fixed
completion phrases occur as a substring of the tested latest-event text
(the status message for KTJ and FamilyMart, the status/description text
for Ecan); matching is exact with no case folding, and an empty status
text yields `false`. -/
theorem delivered_iff_keyword_substring :
    (∀ (raw : FamRaw) (ti : TrackingInfo FamRaw), famConvert raw = some ti →
      (ti.is_delivered = true ↔
        ∃ k ∈ ["貨件配達取件店舖", "已完成取件"], pyInStr k ti.status = true)) ∧
    (∀ (raw : KtjRaw) (ti : TrackingInfo KtjRaw), ktjConvert raw = some ti →
      (ti.is_delivered = true ↔
        ∃ k ∈ ktjDeliveredKeywords, pyInStr k ti.status = true)) ∧
    (∀ (tn : String) (doc : EcanDoc) (table : EcanTable) (d : EcanDetail)
        (rest : List EcanDetail) (ti : TrackingInfo (List EcanDetail)),
      doc.sheetList = some table → ecanDetailsOfRows table.rows = d :: rest →
      ecanConvert tn doc = some ti →
      (ti.is_delivered = true ↔
        ∃ k ∈ ecanDeliveredKeywords,
          pyInStr k (d.status ++ " " ++ d.desc) = true)) ∧
    (∀ (raw : FamRaw) (ti : TrackingInfo FamRaw), famConvert raw = some ti →
      ti.status = "" → ti.is_delivered = false) ∧
    (∀ (raw : KtjRaw) (ti : TrackingInfo KtjRaw), ktjConvert raw = some ti →
      ti.status = "" → ti.is_delivered = false) := by
  have hfam : ∀ (raw : FamRaw) (ti : TrackingInfo FamRaw),
      famConvert raw = some ti →
      ∃ latest rest, raw.status_list = latest :: rest ∧
        ti.status = latest.STATUS_D ∧
        ti.is_delivered = (pyInStr "貨件配達取件店舖" latest.STATUS_D ||
          pyInStr "已完成取件" latest.STATUS_D) := by
    intro raw ti h
    unfold famConvert at h
    split at h
    · exact Option.noConfusion h
    · rename_i latest rest heq
      exact ⟨latest, rest, heq, by rw [← Option.some.inj h],
        by rw [← Option.some.inj h]⟩
  have hktj : ∀ (raw : KtjRaw) (ti : TrackingInfo KtjRaw),
      ktjConvert raw = some ti →
      ∃ latest : KtjCourse,
        ti.status = pyStrip (latest.statusIdName.getD "") ∧
        ti.is_delivered = ktjDeliveredKeywords.any
          (fun k => pyInStr k (pyStrip (latest.statusIdName.getD ""))) := by
    intro raw ti h
    unfold ktjConvert at h
    split at h
    · exact Option.noConfusion h
    · dsimp only at h
      split at h
      · exact Option.noConfusion h
      · rename_i latest rest heq
        exact ⟨latest, by rw [← Option.some.inj h],
          by rw [← Option.some.inj h]⟩
  refine ⟨?_, ?_, ?_, ?_, ?_⟩
  · intro raw ti h
    obtain ⟨latest, rest, heq, hst, hdel⟩ := hfam raw ti h
    rw [hdel, hst]
    simp [List.any_eq_true]
  · intro raw ti h
    obtain ⟨latest, hst, hdel⟩ := hktj raw ti h
    rw [hdel, hst]
    exact List.any_eq_true
  · intro tn doc table d rest ti h1 h2 h3
    have hc : ecanConvert tn doc = some
        { order_id := pyOrStr (ecanWaybill table) (some tn)
          platform := platformValue .Ecan
          status := stripChars [' ', '-']
            (d.status ++ "(" ++ d.station ++ ") - " ++ d.desc)
          time := some d.date
          is_delivered := ecanDeliveredKeywords.any
            (fun k => pyInStr k (d.status ++ " " ++ d.desc))
          raw_data := d :: rest } := by
      unfold ecanConvert
      rw [h1]
      dsimp only
      rw [h2]
    rw [h3] at hc
    rw [Option.some.inj hc]
    exact List.any_eq_true
  · intro raw ti h hempty
    obtain ⟨latest, rest, heq, hst, hdel⟩ := hfam raw ti h
    rw [hdel]
    rw [hst] at hempty
    rw [hempty]
    decide
  · intro raw ti h hempty
    obtain ⟨latest, hst, hdel⟩ := hktj raw ti h
    rw [hdel]
    rw [hst] at hempty
    rw [hempty]
    decide

/-- Witness for C7: a FamilyMart status containing the completion phrase
`已完成取件` is delivered, via the equivalence. -/
theorem delivered_iff_keyword_substring_witness :
    ∃ k ∈ ["貨件配達取件店舖", "已完成取件"], pyInStr k "已完成取件" = true :=
  (delivered_iff_keyword_substring.1
      ⟨[⟨"A123", "2024/01/01 10:00", "已完成取件"⟩]⟩ _ rfl).mp (by decide)

end ParcelTw
